import Mathlib

/-!
Shallow embedding of `src/runtime-spi-apigee/lib/apigeeruntime.js`.

The module is an OAuth 2.0 SPI adapter that forwards each operation as an
HTTP call to a backend.  The embedding models:
  * the JavaScript primitive values that flow through the adapter
    (`JScalar`), with JS truthiness and string coercion;
  * `querystring.stringify` (Node), with `encodeURIComponent`-style
    percent escaping;
  * `Buffer(...).toString('base64')` over the UTF-8 bytes of a string;
  * the constructor `spi` and the seven SPI operations, each producing the
    outbound `HttpRequest` (verb, sub-path, headers, encoded body or query
    string) exactly as the source builds it, plus the `grantType` the
    source records on the options object;
  * `JSON.parse` restricted to the flat fragment this backend contract
    uses (top-level scalars and one-level objects of scalar fields; see
    `jsonParse`), and `parseInt` on the decimal fragment;
  * the response handlers `requestComplete` (POST path) and
    `getRequestComplete` (GET path) as functions from the received status
    code, buffered body and headers to the callback invocation they
    perform, plus `requestCompleteCallCount`, which counts how many times
    `requestComplete` invokes the caller's callback when that callback
    itself may throw.

Transport mechanics (http/https dispatch, socket events, `console.log`)
are outside the embedding; the handlers take the fully buffered response
as input, matching the source's `end`-event behaviour.
-/

/-- JavaScript primitive values that flow through the adapter: strings,
(integer) numbers, booleans, `null`, `NaN` and `undefined`. -/
inductive JScalar where
  | str (s : String)
  | num (n : Int)
  | bool (b : Bool)
  | null
  | nan
  | undef
deriving DecidableEq, Repr

/-- JavaScript truthiness of a primitive value: `undefined`, `null`,
`NaN`, `0`, `""` and `false` are falsy, everything else is truthy. -/
def JScalar.truthy : JScalar → Bool
  | .str s => !(s == "")
  | .num n => !(n == 0)
  | .bool b => b
  | .null => false
  | .nan => false
  | .undef => false

/-- JavaScript string coercion, as performed by the `+` operator on a
string operand and by `parseInt` on a non-string argument. -/
def JScalar.toJsString : JScalar → String
  | .str s => s
  | .num n => toString n
  | .bool true => "true"
  | .bool false => "false"
  | .null => "null"
  | .nan => "NaN"
  | .undef => "undefined"

/-- Value coercion used by Node's `querystring.stringify`: strings pass
through, finite numbers and booleans are printed, everything else
(`undefined`, `null`, `NaN`) becomes the empty string. -/
def qsValString : JScalar → String
  | .str s => s
  | .num n => toString n
  | .bool true => "true"
  | .bool false => "false"
  | .null => ""
  | .nan => ""
  | .undef => ""

/-- UTF-8 encoding of a Unicode code point, as a list of byte values. -/
def utf8Bytes (c : Nat) : List Nat :=
  if c < 128 then [c]
  else if c < 2048 then [192 + c / 64, 128 + c % 64]
  else if c < 65536 then [224 + c / 4096, 128 + (c / 64) % 64, 128 + c % 64]
  else [240 + c / 262144, 128 + (c / 4096) % 64, 128 + (c / 64) % 64, 128 + c % 64]

/-- UTF-8 bytes of a string (the encoding `Buffer(string)` uses). -/
def strBytes (s : String) : List Nat := s.toList.foldr (fun c acc => utf8Bytes c.toNat ++ acc) []

/-- The base64 alphabet. -/
def b64Chars : List Char := "ABCDEFGHIJKLMNOPQRSTUVWXYZabcdefghijklmnopqrstuvwxyz0123456789+/".toList

/-- Base64 digit for a 6-bit group. -/
def b64Char (n : Nat) : Char := b64Chars.getD n '='

/-- Base64 encoding of a byte list, three bytes at a time with `=`
padding. -/
def base64Rec : List Nat → List Char
  | [] => []
  | [a] => [b64Char (a / 4), b64Char ((a % 4) * 16), '=', '=']
  | [a, b] => [b64Char (a / 4), b64Char ((a % 4) * 16 + b / 16), b64Char ((b % 16) * 4), '=']
  | a :: b :: c :: rest =>
    [b64Char (a / 4), b64Char ((a % 4) * 16 + b / 16), b64Char ((b % 16) * 4 + c / 64), b64Char (c % 64)]
      ++ base64Rec rest

/-- Model of `new Buffer(s).toString('base64')`: base64 of the UTF-8
bytes of `s`. -/
def jsBase64 (s : String) : String := String.mk (base64Rec (strBytes s))

/-- Uppercase hexadecimal digit. -/
def hexDigit (n : Nat) : Char := "0123456789ABCDEF".toList.getD n '0'

/-- Percent-encoding of one byte. -/
def percentEncode (b : Nat) : List Char := ['%', hexDigit (b / 16), hexDigit (b % 16)]

/-- Characters `encodeURIComponent` leaves unescaped: ASCII alphanumerics
and `- _ . ! ~ * ' ( )` (39 is the apostrophe code point). -/
def uriUnreserved (c : Char) : Bool :=
  c.isAlphanum || c == '-' || c == '_' || c == '.' || c == '!' || c == '~' ||
    c == '*' || c.toNat == 39 || c == '(' || c == ')'

/-- `encodeURIComponent` behaviour on one character: unreserved
characters pass through, all others are percent-encoded per UTF-8 byte. -/
def escapeChar (c : Char) : List Char :=
  if uriUnreserved c then [c]
  else (utf8Bytes c.toNat).foldr (fun b acc => percentEncode b ++ acc) []

/-- Model of Node's `querystring.escape` (`encodeURIComponent`). -/
def qsEscape (s : String) : String :=
  String.mk (s.toList.foldr (fun c acc => escapeChar c ++ acc) [])

/-- One `key=value` component of a stringified query, both sides
escaped, the value coerced as `querystring.stringify` coerces it. -/
def qsEnc (kv : String × JScalar) : String :=
  qsEscape kv.1 ++ "=" ++ qsEscape (qsValString kv.2)

/-- Components after the first, each preceded by `&`. -/
def qsTail : List (String × JScalar) → String
  | [] => ""
  | kv :: rest => "&" ++ (qsEnc kv ++ qsTail rest)

/-- Model of Node's `querystring.stringify`: `key=value` pairs joined
with `&`, in insertion order. -/
def qsStringify : List (String × JScalar) → String
  | [] => ""
  | kv :: rest => qsEnc kv ++ qsTail rest

/-- The adapter's configuration, set by the constructor (`this.uri`,
`this.key` in the source). -/
structure SpiConfig where
  uri : JScalar
  key : JScalar
deriving DecidableEq, Repr

/-- The constructor `spi(options)`: throws synchronously when
`options.uri` or `options.key` is falsy, otherwise stores both fields. -/
def spi (uri key : JScalar) : Except String SpiConfig :=
  if !uri.truthy then Except.error "uri parameter must be specified"
  else if !key.truthy then Except.error "key parameter must be specified"
  else Except.ok ⟨uri, key⟩

/-- The per-call options object; absent properties are `undefined`. -/
structure CallOptions where
  clientId : JScalar := .undef
  clientSecret : JScalar := .undef
  scope : JScalar := .undef
  tokenLifetime : JScalar := .undef
  username : JScalar := .undef
  password : JScalar := .undef
  code : JScalar := .undef
  redirectUri : JScalar := .undef
  refreshToken : JScalar := .undef
  accessToken : JScalar := .undef
  state : JScalar := .undef
deriving DecidableEq, Repr

/-- The outbound HTTP request an operation assembles: verb, sub-path
under the configured base URI, headers, encoded body (POST) or encoded
query string (GET). -/
structure HttpRequest where
  method : String
  uriPath : String
  headers : List (String × String)
  body : Option String
  query : Option String
deriving DecidableEq, Repr

/-- `makeRequest` (source lines 216-262), restricted to the request it
assembles: the `Authorization` header is the base64 of
`clientId + ':' + clientSecret` (JS string coercion), `x-DNA-Api-Key`
carries the adapter's key, `x-DNA-Token-Lifetime` is added when
`options.tokenLifetime` is truthy, and `Content-Type` is added when the
body is non-empty. -/
def makeRequest (self : SpiConfig) (verb uriPath body : String) (options : CallOptions) : HttpRequest :=
  ⟨verb, uriPath,
    [("Authorization", jsBase64 (options.clientId.toJsString ++ ":" ++ options.clientSecret.toJsString)),
     ("x-DNA-Api-Key", self.key.toJsString)]
      ++ (if options.tokenLifetime.truthy then [("x-DNA-Token-Lifetime", options.tokenLifetime.toJsString)] else [])
      ++ (if !(body == "") then [("Content-Type", "application/x-www-form-urlencoded")] else []),
    some body, none⟩

/-- `makeGetRequest` (source lines 264-291), restricted to the request
it assembles: a GET with only the `x-DNA-Api-Key` header and the encoded
query string appended to the target URI. -/
def makeGetRequest (self : SpiConfig) (uriPath qs : String) (_options : CallOptions) : HttpRequest :=
  ⟨"GET", uriPath, [("x-DNA-Api-Key", self.key.toJsString)], none, some qs⟩

/-- An operation's prepared call: the outbound request together with the
`options.grantType` value the operation records before issuing it
(`undefined` for the operations that never set it). -/
structure PreparedCall where
  request : HttpRequest
  grantType : JScalar
deriving DecidableEq, Repr

/-- `spi.prototype.createTokenClientCredentials` (source lines 37-50). -/
def createTokenClientCredentials (self : SpiConfig) (options : CallOptions) : PreparedCall :=
  let qs : List (String × JScalar) :=
    ("grant_type", .str "client_credentials")
      :: (if options.scope.truthy then [("scope", options.scope)] else [])
  ⟨makeRequest self "POST" "/tokentypes/client/tokens" (qsStringify qs) options,
   .str "client_credentials"⟩

/-- `spi.prototype.createTokenPasswordCredentials` (source lines 63-78). -/
def createTokenPasswordCredentials (self : SpiConfig) (options : CallOptions) : PreparedCall :=
  let qs : List (String × JScalar) :=
    ("grant_type", .str "password")
      :: ("username", options.username)
      :: ("password", options.password)
      :: (if options.scope.truthy then [("scope", options.scope)] else [])
  ⟨makeRequest self "POST" "/tokentypes/password/tokens" (qsStringify qs) options,
   .str "password"⟩

/-- `spi.prototype.createTokenAuthorizationCode` (source lines 90-107). -/
def createTokenAuthorizationCode (self : SpiConfig) (options : CallOptions) : PreparedCall :=
  let qs : List (String × JScalar) :=
    ("grant_type", .str "authorization_code")
      :: ("code", options.code)
      :: ((if options.redirectUri.truthy then [("redirect_uri", options.redirectUri)] else [])
          ++ (if options.clientId.truthy then [("client_id", options.clientId)] else []))
  ⟨makeRequest self "POST" "/tokentypes/authcode/tokens" (qsStringify qs) options,
   .str "authorization_code"⟩

/-- `spi.prototype.generateAuthorizationCode` (source lines 118-137). -/
def generateAuthorizationCode (self : SpiConfig) (options : CallOptions) : PreparedCall :=
  let qs : List (String × JScalar) :=
    ("response_type", .str "code")
      :: ("client_id", options.clientId)
      :: ((if options.redirectUri.truthy then [("redirect_uri", options.redirectUri)] else [])
          ++ (if options.scope.truthy then [("scope", options.scope)] else [])
          ++ (if options.state.truthy then [("state", options.state)] else []))
  ⟨makeGetRequest self "/tokentypes/authcode/authcodes" (qsStringify qs) options, .undef⟩

/-- `spi.prototype.createTokenImplicitGrant` (source lines 148-167). -/
def createTokenImplicitGrant (self : SpiConfig) (options : CallOptions) : PreparedCall :=
  let qs : List (String × JScalar) :=
    ("response_type", .str "token")
      :: ("client_id", options.clientId)
      :: ((if options.redirectUri.truthy then [("redirect_uri", options.redirectUri)] else [])
          ++ (if options.scope.truthy then [("scope", options.scope)] else [])
          ++ (if options.state.truthy then [("state", options.state)] else []))
  ⟨makeGetRequest self "/tokentypes/implicit/tokens" (qsStringify qs) options, .undef⟩

/-- `spi.prototype.refreshToken` (source lines 176-190). -/
def refreshToken (self : SpiConfig) (options : CallOptions) : PreparedCall :=
  let qs : List (String × JScalar) :=
    ("grant_type", .str "refresh_token")
      :: ("refresh_token", options.refreshToken)
      :: (if options.scope.truthy then [("scope", options.scope)] else [])
  ⟨makeRequest self "POST" "/tokentypes/all/refresh" (qsStringify qs) options,
   .str "refresh_token"⟩

/-- `spi.prototype.invalidateToken` (source lines 199-214): a truthy
`refreshToken` wins, otherwise `accessToken` is used; `grantType` is
never set by this operation. -/
def invalidateToken (self : SpiConfig) (options : CallOptions) : PreparedCall :=
  let qs : List (String × JScalar) :=
    if options.refreshToken.truthy then
      [("token", options.refreshToken), ("token_type_hint", .str "refresh_token")]
    else
      [("token", options.accessToken), ("token_type_hint", .str "access_token")]
  ⟨makeRequest self "POST" "/tokentypes/all/invalidate" (qsStringify qs) options, .undef⟩

/-- A parsed JSON document in the fragment this backend contract uses:
either a top-level scalar or a one-level object of scalar fields. -/
inductive JVal where
  | prim (v : JScalar)
  | obj (fields : List (String × JScalar))
deriving DecidableEq, Repr

/-- Opening-brace character. -/
def lbraceChar : Char := Char.ofNat 123

/-- Closing-brace character. -/
def rbraceChar : Char := Char.ofNat 125

/-- JSON insignificant whitespace. -/
def isJsonWs (c : Char) : Bool := c == ' ' || c == '\t' || c == '\n' || c == '\r'

/-- Drop leading JSON whitespace. -/
def skipWs (cs : List Char) : List Char := cs.dropWhile isJsonWs

/-- One-character JSON string escapes (the `\u` form is outside the
modelled fragment). -/
def jsonEscapes : List (Char × Char) :=
  [('n', '\n'), ('t', '\t'), ('r', '\r'), ('b', Char.ofNat 8), ('f', Char.ofNat 12),
   ('"', '"'), ('\\', '\\'), ('/', '/')]

/-- Resolve a one-character escape through the table. -/
def jsonEscChar (c : Char) : Option Char :=
  (jsonEscapes.find? (fun p => p.1 == c)).map (fun p => p.2)

/-- Scan the remainder of a JSON string literal (the opening quote
already consumed), returning its characters and the rest of the input.
Fuel bounds the recursion; each step consumes at least one character. -/
def scanJsonString : Nat → List Char → Option (List Char × List Char)
  | 0, _ => none
  | _ + 1, [] => none
  | fuel + 1, c :: rest =>
    if c == '"' then some ([], rest)
    else if c == '\\' then
      match rest with
      | [] => none
      | e :: rest2 =>
        match jsonEscChar e with
        | some ec => (scanJsonString fuel rest2).map (fun p => (ec :: p.1, p.2))
        | none => none
    else if c.toNat < 32 then none
    else (scanJsonString fuel rest).map (fun p => (c :: p.1, p.2))

/-- Numeric value of a list of decimal digits. -/
def digitsToNat (ds : List Char) : Nat := ds.foldl (fun a c => a * 10 + (c.toNat - 48)) 0

/-- Scan a JSON number in the integer fragment: optional minus sign and
decimal digits with no redundant leading zero; fractions and exponents
are outside the modelled fragment. -/
def scanJsonNumber (cs : List Char) : Option (Int × List Char) :=
  let neg := cs.head? == some '-'
  let cs2 := if neg then cs.tail else cs
  let ds := cs2.takeWhile Char.isDigit
  let rest := cs2.dropWhile Char.isDigit
  if ds.isEmpty then none
  else if 1 < ds.length && ds.head? == some '0' then none
  else if rest.head? == some '.' || rest.head? == some 'e' || rest.head? == some 'E' then none
  else some ((if neg then -(digitsToNat ds : Int) else (digitsToNat ds : Int)), rest)

/-- Scan the JSON keywords `true`, `false`, `null`. -/
def scanJsonLit (cs : List Char) : Option (JScalar × List Char) :=
  match cs with
  | 't' :: 'r' :: 'u' :: 'e' :: rest => some (.bool true, rest)
  | 'f' :: 'a' :: 'l' :: 's' :: 'e' :: rest => some (.bool false, rest)
  | 'n' :: 'u' :: 'l' :: 'l' :: rest => some (.null, rest)
  | _ => none

/-- Scan one scalar JSON value (string, integer number, or keyword). -/
def scanJsonScalar (cs : List Char) : Option (JScalar × List Char) :=
  match cs with
  | [] => none
  | c :: rest =>
    if c == '"' then (scanJsonString (rest.length + 1) rest).map (fun p => (.str (String.mk p.1), p.2))
    else if c == '-' || c.isDigit then (scanJsonNumber cs).map (fun p => (.num p.1, p.2))
    else scanJsonLit cs

/-- Scan the members of a non-empty JSON object (input positioned just
after the opening brace), up to and including the closing brace. -/
def scanJsonMembers : Nat → List Char → Option (List (String × JScalar) × List Char)
  | 0, _ => none
  | fuel + 1, cs =>
    match skipWs cs with
    | [] => none
    | c :: rest =>
      if c == '"' then
        match scanJsonString (rest.length + 1) rest with
        | none => none
        | some kp =>
          match skipWs kp.2 with
          | [] => none
          | c2 :: rest2 =>
            if c2 == ':' then
              match scanJsonScalar (skipWs rest2) with
              | none => none
              | some vp =>
                match skipWs vp.2 with
                | [] => none
                | c3 :: rest3 =>
                  if c3 == ',' then
                    (scanJsonMembers fuel rest3).map
                      (fun mp => ((String.mk kp.1, vp.1) :: mp.1, mp.2))
                  else if c3 == rbraceChar then some ([(String.mk kp.1, vp.1)], rest3)
                  else none
            else none
      else none

/-- Model of `JSON.parse` on the fragment the backend wire contract
uses (§6 of the spec): a top-level scalar, or a one-level object whose
field values are scalars.  Nested objects, arrays, fractional or
exponent numbers and `\u` escapes are outside the fragment and yield
`none`. -/
def jsonParse (s : String) : Option JVal :=
  match skipWs s.toList with
  | [] => none
  | c :: rest =>
    if c == lbraceChar then
      match skipWs rest with
      | [] => none
      | c2 :: rest2 =>
        if c2 == rbraceChar then
          if (skipWs rest2).isEmpty then some (.obj []) else none
        else
          match scanJsonMembers (rest.length + 1) (c2 :: rest2) with
          | some mp => if (skipWs mp.2).isEmpty then some (.obj mp.1) else none
          | none => none
    else
      match scanJsonScalar (c :: rest) with
      | some vp => if (skipWs vp.2).isEmpty then some (.prim vp.1) else none
      | none => none

/-- JavaScript property access `v.k`: `undefined` on a non-object, the
last binding of `k` on an object (later duplicate keys overwrite). -/
def JVal.get (v : JVal) (k : String) : JScalar :=
  match v with
  | .prim _ => .undef
  | .obj fields => fields.foldl (fun acc kv => if kv.1 == k then kv.2 else acc) JScalar.undef

/-- Model of `parseInt(v)` (decimal fragment; the hexadecimal `0x`
prefix is outside the fragment): coerce to string, trim leading
whitespace, read an optional sign and leading decimal digits; `NaN`
when no digit is found. -/
def jsParseInt (v : JScalar) : JScalar :=
  let cs := v.toJsString.toList.dropWhile isJsonWs
  let neg := cs.head? == some '-'
  let cs2 := if neg || cs.head? == some '+' then cs.tail else cs
  let ds := cs2.takeWhile Char.isDigit
  if ds.isEmpty then .nan
  else .num (if neg then -(digitsToNat ds : Int) else (digitsToNat ds : Int))

/-- The callback invocation performed by the POST-path response handler:
an HTTP-level error `cb(err)`, a success with a result object
`cb(undefined, ret)`, or a success with no result `cb()`. -/
inductive PostOutcome where
  | httpError (statusCode : Nat) (message : String)
  | success (result : List (String × JScalar))
  | emptySuccess
deriving DecidableEq, Repr

/-- `requestComplete` (source lines 304-338) on the fully buffered
response: status at least 300 fails with the status code and the raw
body as message; otherwise the body is parsed as JSON and the result
object is built with fields `access_token`, `refresh_token`,
`token_type` (the recorded grant type), `scope` and `expires_in`
(through `parseInt`); an unparseable body yields a bare `cb()`. -/
def requestComplete (statusCode : Nat) (respData : String) (grantType : JScalar) : PostOutcome :=
  if 300 ≤ statusCode then .httpError statusCode respData
  else
    match jsonParse respData with
    | some sr =>
      .success [("access_token", sr.get "access_token"),
                ("refresh_token", sr.get "refresh_token"),
                ("token_type", grantType),
                ("scope", sr.get "scope"),
                ("expires_in", jsParseInt (sr.get "expires_in"))]
    | none => .emptySuccess

/-- How many times `requestComplete` invokes the caller's callback on a
fully buffered response, when the callback throws on its first
invocation exactly if `cbThrows` is true.  The source wraps
`cb(undefined, ret)` inside the `try` block whose `catch` calls `cb()`
again, so a throwing callback on the parsed-JSON path is invoked a
second time. -/
def requestCompleteCallCount (statusCode : Nat) (respData : String) (cbThrows : Bool) : Nat :=
  if 300 ≤ statusCode then 1
  else
    match jsonParse respData with
    | some _ => if cbThrows then 2 else 1
    | none => 1

/-- The callback invocation performed by the GET-path response handler:
an HTTP-level error `cb(err)` or a success `cb(undefined, location)`. -/
inductive GetOutcome where
  | httpError (statusCode : Nat) (message : String)
  | success (location : JScalar)
deriving DecidableEq, Repr

/-- `getRequestComplete` (source lines 340-360) on the fully buffered
response: any status other than 302 fails with the status code and the
raw body as message; on 302 the callback receives
`resp.headers.location` (which is `undefined` when the header is
absent), regardless of body content. -/
def getRequestComplete (statusCode : Nat) (respData : String) (location : Option String) : GetOutcome :=
  if !(statusCode == 302) then .httpError statusCode respData
  else .success (match location with | some l => .str l | none => .undef)

/-- Whether a GET-path outcome is a success. -/
def GetOutcome.isSuccess : GetOutcome → Bool
  | .httpError _ _ => false
  | .success _ => true

/-- First binding of a key in a result object (JS property read on the
objects the adapter itself builds, which have no duplicate keys). -/
def lookupField (l : List (String × JScalar)) (k : String) : Option JScalar :=
  (l.find? (fun kv => kv.1 == k)).map (fun kv => kv.2)

/-- First binding of a header name in a header list. -/
def lookupHeader (hs : List (String × String)) (k : String) : Option String :=
  (hs.find? (fun kv => kv.1 == k)).map (fun kv => kv.2)

/-- The result object delivered by a `PostOutcome`, empty when none was
delivered. -/
def postResultFields : PostOutcome → List (String × JScalar)
  | .success r => r
  | _ => []

/-- Body of the successful client-credentials response used in the
spec's example (§8). -/
def c2Body : String :=
  "\x7b\"access_token\":\"T\",\"refresh_token\":\"R\",\"scope\":\"S\",\"expires_in\":\"3600\"\x7d"

/-- The result object the spec claims for that response, with camelCase
property names. -/
def c2ClaimedResult : List (String × JScalar) :=
  [("accessToken", JScalar.str "T"), ("refreshToken", JScalar.str "R"),
   ("tokenType", JScalar.str "client_credentials"), ("scope", JScalar.str "S"),
   ("expiresIn", JScalar.num 3600)]

/-- The result object the code actually builds for that response, with
snake_case property names. -/
def c2CodeResult : List (String × JScalar) :=
  [("access_token", JScalar.str "T"), ("refresh_token", JScalar.str "R"),
   ("token_type", JScalar.str "client_credentials"), ("scope", JScalar.str "S"),
   ("expires_in", JScalar.num 3600)]

/-- Body of the successful JSON response used to exercise the
double-callback path. -/
def c8Body : String := "\x7b\"access_token\":\"T\"\x7d"

/-- A stringified query whose first component is a fixed key-value pair
starts with that pair's encoding, whatever follows. -/
theorem exists_qs_head (kv : String × JScalar) (t : List (String × JScalar)) (lit : String)
    (h : qsEnc kv = lit) :
    ∃ r, some (qsStringify (kv :: t)) = some (lit ++ r) :=
  ⟨qsTail t, by rw [show qsStringify (kv :: t) = qsEnc kv ++ qsTail t from rfl, h]⟩

/-- C1: for the GET-based operations (generateAuthorizationCode,
createTokenImplicitGrant), the response handler succeeds exactly when
the HTTP status is 302; on success the callback receives the `Location`
header value regardless of body content, and on any other status
(including 200) it receives an error carrying that status code and the
raw response body as its message. -/
theorem c1_get_success_iff_302 (status : Nat) (body : String) (location : Option String) :
    ((getRequestComplete status body location).isSuccess = true ↔ status = 302) ∧
    (status = 302 → getRequestComplete status body location =
      GetOutcome.success (match location with | some l => JScalar.str l | none => JScalar.undef)) ∧
    (status ≠ 302 → getRequestComplete status body location = GetOutcome.httpError status body) := by
  unfold getRequestComplete
  by_cases h : status = 302
  · subst h
    simp [GetOutcome.isSuccess]
  · simp [h, GetOutcome.isSuccess]

/-- C1 witness: status 302 with a `Location` header yields that header
value; status 200 yields an error with the status and the raw body. -/
theorem c1_witness :
    getRequestComplete 302 "ignored" (some "https://app/callback?code=abc") =
      GetOutcome.success (JScalar.str "https://app/callback?code=abc") ∧
    getRequestComplete 200 "body" (some "x") = GetOutcome.httpError 200 "body" :=
  ⟨(c1_get_success_iff_302 302 "ignored" (some "https://app/callback?code=abc")).2.1 rfl,
   (c1_get_success_iff_302 200 "body" (some "x")).2.2 (by decide)⟩

/-- C2 counterexample: on the claim's exact body and a success status,
the result object a client-credentials call delivers is not the claimed
camelCase object — it has no `accessToken` property at all; the value
sits under `access_token`. -/
theorem c2_counterexample :
    requestComplete 200 c2Body
        (createTokenClientCredentials ⟨JScalar.str "http://h", JScalar.str "k"⟩
          { clientId := JScalar.str "id", clientSecret := JScalar.str "secret" }).grantType ≠
      PostOutcome.success c2ClaimedResult ∧
    lookupField (postResultFields (requestComplete 200 c2Body
        (createTokenClientCredentials ⟨JScalar.str "http://h", JScalar.str "k"⟩
          { clientId := JScalar.str "id", clientSecret := JScalar.str "secret" }).grantType)) "accessToken"
      = none ∧
    lookupField (postResultFields (requestComplete 200 c2Body
        (createTokenClientCredentials ⟨JScalar.str "http://h", JScalar.str "k"⟩
          { clientId := JScalar.str "id", clientSecret := JScalar.str "secret" }).grantType)) "access_token"
      = some (JScalar.str "T") := by decide

/-- C2 (amended): for a client-credentials call whose POST response has
a success status (below 300) and the claim's body, the result delivered
to the callback is the object with snake_case keys `access_token = "T"`,
`refresh_token = "R"`, `token_type = "client_credentials"` (the grant
type recorded at request time, not taken from the backend response),
`scope = "S"` and `expires_in = 3600` (parsed from string to integer). -/
theorem c2_amended (status : Nat) (self : SpiConfig) (opts : CallOptions) (h : status < 300) :
    requestComplete status c2Body (createTokenClientCredentials self opts).grantType =
      PostOutcome.success c2CodeResult := by
  unfold requestComplete
  rw [if_neg (by omega)]
  rw [show jsonParse c2Body =
        some (JVal.obj [("access_token", JScalar.str "T"), ("refresh_token", JScalar.str "R"),
          ("scope", JScalar.str "S"), ("expires_in", JScalar.str "3600")]) from by decide]
  rfl

/-- C2 witness: the amended claim at status 200 with concrete adapter
configuration and client credentials. -/
theorem c2_witness :
    requestComplete 200 c2Body
        (createTokenClientCredentials ⟨JScalar.str "http://h", JScalar.str "k"⟩
          { clientId := JScalar.str "id", clientSecret := JScalar.str "secret" }).grantType =
      PostOutcome.success c2CodeResult :=
  c2_amended 200 ⟨JScalar.str "http://h", JScalar.str "k"⟩
    { clientId := JScalar.str "id", clientSecret := JScalar.str "secret" } (by decide)

/-- C3: for every POST-based operation, a response with status below 300
whose body is not parseable JSON is reported as a success with no result
object and no error. -/
theorem c3_nonjson_empty_success (status : Nat) (body : String) (grantType : JScalar)
    (h1 : status < 300) (h2 : jsonParse body = none) :
    requestComplete status body grantType = PostOutcome.emptySuccess := by
  unfold requestComplete
  rw [if_neg (by omega), h2]

/-- C3 witness: status 200 with the non-JSON body `"OK"`. -/
theorem c3_witness : requestComplete 200 "OK" JScalar.undef = PostOutcome.emptySuccess :=
  c3_nonjson_empty_success 200 "OK" JScalar.undef (by decide) (by decide)

/-- C4: for every POST-based operation, a response with status at least
300 produces an error whose status code is the response status and whose
message is the raw response body, and no result. -/
theorem c4_http_error (status : Nat) (body : String) (grantType : JScalar) (h : 300 ≤ status) :
    requestComplete status body grantType = PostOutcome.httpError status body := by
  unfold requestComplete
  rw [if_pos h]

/-- C4 witness: status 400 with body `"bad_request"`. -/
theorem c4_witness : requestComplete 400 "bad_request" (JScalar.str "client_credentials") =
    PostOutcome.httpError 400 "bad_request" :=
  c4_http_error 400 "bad_request" (JScalar.str "client_credentials") (by decide)

/-- C5: for all seven operations and every combination of optional
parameters, the outbound request uses exactly the verb and sub-path of
the §4.1 table, and the four token-issuing POST operations' encoded
bodies always start with `grant_type` set to the fixed value for that
operation. -/
theorem c5_wire_table (self : SpiConfig) (opts : CallOptions) :
    ((createTokenClientCredentials self opts).request.method = "POST" ∧
     (createTokenClientCredentials self opts).request.uriPath = "/tokentypes/client/tokens" ∧
     ∃ r, (createTokenClientCredentials self opts).request.body =
       some ("grant_type=client_credentials" ++ r)) ∧
    ((createTokenPasswordCredentials self opts).request.method = "POST" ∧
     (createTokenPasswordCredentials self opts).request.uriPath = "/tokentypes/password/tokens" ∧
     ∃ r, (createTokenPasswordCredentials self opts).request.body =
       some ("grant_type=password" ++ r)) ∧
    ((createTokenAuthorizationCode self opts).request.method = "POST" ∧
     (createTokenAuthorizationCode self opts).request.uriPath = "/tokentypes/authcode/tokens" ∧
     ∃ r, (createTokenAuthorizationCode self opts).request.body =
       some ("grant_type=authorization_code" ++ r)) ∧
    ((generateAuthorizationCode self opts).request.method = "GET" ∧
     (generateAuthorizationCode self opts).request.uriPath = "/tokentypes/authcode/authcodes") ∧
    ((createTokenImplicitGrant self opts).request.method = "GET" ∧
     (createTokenImplicitGrant self opts).request.uriPath = "/tokentypes/implicit/tokens") ∧
    ((refreshToken self opts).request.method = "POST" ∧
     (refreshToken self opts).request.uriPath = "/tokentypes/all/refresh" ∧
     ∃ r, (refreshToken self opts).request.body = some ("grant_type=refresh_token" ++ r)) ∧
    ((invalidateToken self opts).request.method = "POST" ∧
     (invalidateToken self opts).request.uriPath = "/tokentypes/all/invalidate") := by
  refine ⟨⟨rfl, rfl, ?_⟩, ⟨rfl, rfl, ?_⟩, ⟨rfl, rfl, ?_⟩, ⟨rfl, rfl⟩, ⟨rfl, rfl⟩,
    ⟨rfl, rfl, ?_⟩, ⟨rfl, rfl⟩⟩
  · refine exists_qs_head _ _ _ ?_
    decide
  · refine exists_qs_head _ _ _ ?_
    decide
  · refine exists_qs_head _ _ _ ?_
    decide
  · refine exists_qs_head _ _ _ ?_
    decide

/-- C6: every POST-based operation sends an `Authorization` header whose
value is exactly the base64 of `clientId:clientSecret` (no `Basic`
prefix) together with `x-DNA-Api-Key` carrying the adapter's key, while
the two GET-based operations send only the `x-DNA-Api-Key` header and no
`Authorization` header. -/
theorem c6_auth_headers (self : SpiConfig) (opts : CallOptions) (i s : String)
    (hci : opts.clientId = JScalar.str i) (hcs : opts.clientSecret = JScalar.str s) :
    (lookupHeader (createTokenClientCredentials self opts).request.headers "Authorization" =
        some (jsBase64 (i ++ ":" ++ s)) ∧
     lookupHeader (createTokenClientCredentials self opts).request.headers "x-DNA-Api-Key" =
        some self.key.toJsString) ∧
    (lookupHeader (createTokenPasswordCredentials self opts).request.headers "Authorization" =
        some (jsBase64 (i ++ ":" ++ s)) ∧
     lookupHeader (createTokenPasswordCredentials self opts).request.headers "x-DNA-Api-Key" =
        some self.key.toJsString) ∧
    (lookupHeader (createTokenAuthorizationCode self opts).request.headers "Authorization" =
        some (jsBase64 (i ++ ":" ++ s)) ∧
     lookupHeader (createTokenAuthorizationCode self opts).request.headers "x-DNA-Api-Key" =
        some self.key.toJsString) ∧
    (lookupHeader (refreshToken self opts).request.headers "Authorization" =
        some (jsBase64 (i ++ ":" ++ s)) ∧
     lookupHeader (refreshToken self opts).request.headers "x-DNA-Api-Key" =
        some self.key.toJsString) ∧
    (lookupHeader (invalidateToken self opts).request.headers "Authorization" =
        some (jsBase64 (i ++ ":" ++ s)) ∧
     lookupHeader (invalidateToken self opts).request.headers "x-DNA-Api-Key" =
        some self.key.toJsString) ∧
    (generateAuthorizationCode self opts).request.headers =
      [("x-DNA-Api-Key", self.key.toJsString)] ∧
    (createTokenImplicitGrant self opts).request.headers =
      [("x-DNA-Api-Key", self.key.toJsString)] := by
  refine ⟨⟨?_, ?_⟩, ⟨?_, ?_⟩, ⟨?_, ?_⟩, ⟨?_, ?_⟩, ⟨?_, ?_⟩, rfl, rfl⟩
  · simp [createTokenClientCredentials, makeRequest, lookupHeader, hci, hcs, JScalar.toJsString]
  · simp [createTokenClientCredentials, makeRequest, lookupHeader]
  · simp [createTokenPasswordCredentials, makeRequest, lookupHeader, hci, hcs, JScalar.toJsString]
  · simp [createTokenPasswordCredentials, makeRequest, lookupHeader]
  · simp [createTokenAuthorizationCode, makeRequest, lookupHeader, hci, hcs, JScalar.toJsString]
  · simp [createTokenAuthorizationCode, makeRequest, lookupHeader]
  · simp [refreshToken, makeRequest, lookupHeader, hci, hcs, JScalar.toJsString]
  · simp [refreshToken, makeRequest, lookupHeader]
  · simp [invalidateToken, makeRequest, lookupHeader, hci, hcs, JScalar.toJsString]
  · simp [invalidateToken, makeRequest, lookupHeader]

/-- C6 witness: concrete adapter configuration and credentials; checks
the `Authorization` value is the base64 of `id:secret` on a POST and the
GET header lists are exactly the API-key singleton. -/
theorem c6_witness :
    lookupHeader (createTokenClientCredentials ⟨JScalar.str "http://h", JScalar.str "apikey"⟩
        { clientId := JScalar.str "id", clientSecret := JScalar.str "secret" }).request.headers
      "Authorization" = some (jsBase64 ("id" ++ ":" ++ "secret")) ∧
    lookupHeader (invalidateToken ⟨JScalar.str "http://h", JScalar.str "apikey"⟩
        { clientId := JScalar.str "id", clientSecret := JScalar.str "secret" }).request.headers
      "Authorization" = some (jsBase64 ("id" ++ ":" ++ "secret")) ∧
    (generateAuthorizationCode ⟨JScalar.str "http://h", JScalar.str "apikey"⟩
        { clientId := JScalar.str "id", clientSecret := JScalar.str "secret" }).request.headers =
      [("x-DNA-Api-Key", "apikey")] ∧
    jsBase64 ("id" ++ ":" ++ "secret") = "aWQ6c2VjcmV0" := by
  have h := c6_auth_headers ⟨JScalar.str "http://h", JScalar.str "apikey"⟩
    { clientId := JScalar.str "id", clientSecret := JScalar.str "secret" } "id" "secret" rfl rfl
  exact ⟨h.1.1, h.2.2.2.2.1.1, h.2.2.2.2.2.1, by decide⟩

/-- C7: for the invalidate-token operation, when `refreshToken` is
supplied (truthy) the encoded body is built only from it, whatever
`accessToken` holds; when `refreshToken` is absent the body is built
from `accessToken` instead. -/
theorem c7_invalidate_precedence (self : SpiConfig) (opts opts2 : CallOptions) (r : String)
    (hr : opts.refreshToken = JScalar.str r) (hne : r ≠ "")
    (habs : opts2.refreshToken = JScalar.undef) :
    (invalidateToken self opts).request.body =
      some (qsStringify [("token", JScalar.str r), ("token_type_hint", JScalar.str "refresh_token")]) ∧
    (invalidateToken self opts2).request.body =
      some (qsStringify [("token", opts2.accessToken), ("token_type_hint", JScalar.str "access_token")]) := by
  constructor
  · simp only [invalidateToken, makeRequest, hr]
    simp [JScalar.truthy, hne]
  · simp only [invalidateToken, makeRequest, habs]
    simp [JScalar.truthy]

/-- C7 witness: with both tokens supplied the body carries the refresh
token; with only the access token it carries the access token. -/
theorem c7_witness :
    (invalidateToken ⟨JScalar.str "http://h", JScalar.str "k"⟩
        { clientId := JScalar.str "c", clientSecret := JScalar.str "s",
          refreshToken := JScalar.str "rt", accessToken := JScalar.str "at" }).request.body =
      some (qsStringify [("token", JScalar.str "rt"), ("token_type_hint", JScalar.str "refresh_token")]) ∧
    (invalidateToken ⟨JScalar.str "http://h", JScalar.str "k"⟩
        { clientId := JScalar.str "c", clientSecret := JScalar.str "s",
          accessToken := JScalar.str "at" }).request.body =
      some (qsStringify [("token", JScalar.str "at"), ("token_type_hint", JScalar.str "access_token")]) :=
  c7_invalidate_precedence ⟨JScalar.str "http://h", JScalar.str "k"⟩
    { clientId := JScalar.str "c", clientSecret := JScalar.str "s",
      refreshToken := JScalar.str "rt", accessToken := JScalar.str "at" }
    { clientId := JScalar.str "c", clientSecret := JScalar.str "s",
      accessToken := JScalar.str "at" }
    "rt" rfl (by decide) rfl

/-- C8: the source violates the exactly-once callback contract: on a
response with status 200 and parseable JSON body, a caller callback that
throws on its invocation is invoked a second time (the `catch` block
around `cb(undefined, ret)` calls `cb()` again), while a non-throwing
callback is invoked once. -/
theorem c8_double_callback :
    requestCompleteCallCount 200 c8Body true = 2 ∧
    requestCompleteCallCount 200 c8Body false = 1 := by decide

/-- C9: constructing the adapter with `uri` missing, or with `key`
missing, fails synchronously with the corresponding error, and
constructing with both present yields an adapter whose two configuration
fields equal the supplied values. -/
theorem c9_constructor (u k : JScalar) (hu : u.truthy = true) (hk : k.truthy = true) :
    (∀ k2, spi JScalar.undef k2 = Except.error "uri parameter must be specified") ∧
    spi u JScalar.undef = Except.error "key parameter must be specified" ∧
    spi u k = Except.ok ⟨u, k⟩ := by
  refine ⟨fun k2 => rfl, ?_, ?_⟩
  · simp [spi, hu]
    decide
  · simp [spi, hu, hk]

/-- C9 witness: concrete uri and key values. -/
theorem c9_witness :
    spi JScalar.undef (JScalar.str "k") = Except.error "uri parameter must be specified" ∧
    spi (JScalar.str "http://h") JScalar.undef = Except.error "key parameter must be specified" ∧
    spi (JScalar.str "http://h") (JScalar.str "k") =
      Except.ok ⟨JScalar.str "http://h", JScalar.str "k"⟩ := by
  have h := c9_constructor (JScalar.str "http://h") (JScalar.str "k") (by decide) (by decide)
  exact ⟨h.1 (JScalar.str "k"), h.2.1, h.2.2⟩

/-- C10: whatever optional parameters are supplied, the query string of
generateAuthorizationCode always starts with `response_type=code` and
the query string of createTokenImplicitGrant always starts with
`response_type=token`. -/
theorem c10_response_type_fixed (self : SpiConfig) (opts : CallOptions) :
    (∃ r, (generateAuthorizationCode self opts).request.query =
      some ("response_type=code" ++ r)) ∧
    (∃ r, (createTokenImplicitGrant self opts).request.query =
      some ("response_type=token" ++ r)) := by
  constructor
  · refine exists_qs_head _ _ _ ?_
    decide
  · refine exists_qs_head _ _ _ ?_
    decide
